import Mathlib

/-!
Verification of the camera-based attention state engine
(src/cameraDetector.ts and the offscreen duplicate).

The engine consumes per-frame observations (facial landmarks or no face),
a settings snapshot per frame, and a wall-clock timestamp per frame, and
maintains mutable tracking state (closedFrameCount, eyesClosedStartTime,
currentAttentionState).  We embed the state-machine core as pure Lean
functions: each frame is processed by a step function that returns the new
engine state together with the list of messages sent to the notifier
during that frame.  EAR values and timestamps are modelled as rationals;
timestamps are in milliseconds, matching Date.now(), and the several
Date.now() calls within one frame are identified with the frame's single
timestamp.
-/

/-- The attention state, source type AttentionState = awake | drowsy | microsleep. -/
inductive AttentionState : Type
  | awake
  | drowsy
  | microsleep
deriving DecidableEq, Repr

/-- Threshold settings, fields as read by the source (settings.thresholds.*). -/
structure Thresholds : Type where
  earThreshold : ℚ
  drowsySeconds : ℚ
  microsleepSeconds : ℚ
deriving DecidableEq, Repr

/-- Detector enable flags, fields as read by the source (settings.detectors.*). -/
structure Detectors : Type where
  drowsiness : Bool
  microsleep : Bool
deriving DecidableEq, Repr

/-- Attention settings snapshot: master enabled flag, thresholds, detector flags
(fields as read by the source from getAttentionSettings()). -/
structure AttentionSettings : Type where
  enabled : Bool
  thresholds : Thresholds
  detectors : Detectors
deriving DecidableEq, Repr

/-- MIN_CLOSED_FRAMES = 15 in the source (about 0.5 s at 30 fps). -/
def MIN_CLOSED_FRAMES : Nat := 15

/-- The mutable tracking state of the engine: module-level variables
eyesClosedStartTime, currentAttentionState, closedFrameCount in the source. -/
structure EngineState : Type where
  eyesClosedStartTime : Option ℚ
  currentAttentionState : AttentionState
  closedFrameCount : Nat
deriving DecidableEq, Repr

/-- The initial (and reset) tracking state: null / awake / 0 in the source. -/
def initialEngineState : EngineState :=
  { eyesClosedStartTime := none
    currentAttentionState := AttentionState.awake
    closedFrameCount := 0 }

/-- Modelled from the spec: the eye-openness combination computeAverageEAR lives
in src/attention/ear.ts, which is not part of the provided sources; section 4.1
of the design describes it as the arithmetic mean of the two per-eye EAR values. -/
def computeAverageEAR (leftEAR rightEAR : ℚ) : ℚ :=
  (leftEAR + rightEAR) / 2

/-- Result of one call to determineAttentionState: the returned state together
with the values the call leaves in the mutable variables closedFrameCount and
eyesClosedStartTime. -/
structure ClassifyResult : Type where
  state : AttentionState
  closedFrameCount : Nat
  eyesClosedStartTime : Option ℚ
deriving DecidableEq, Repr

/-- determineAttentionState from src/cameraDetector.ts (lines 27 to 60): compare
the EAR against earThreshold; on a closed frame increment closedFrameCount,
latch eyesClosedStartTime once MIN_CLOSED_FRAMES is reached, and test the
microsleep then drowsiness thresholds, each guarded by its detector flag; on an
open frame reset both counters and return awake. -/
def determineAttentionState (ear : ℚ) (settings : AttentionSettings) (now : ℚ)
    (closedFrameCount : Nat) (eyesClosedStartTime : Option ℚ) : ClassifyResult :=
  if ear < settings.thresholds.earThreshold then
    let cfc := closedFrameCount + 1
    if MIN_CLOSED_FRAMES ≤ cfc then
      let start := eyesClosedStartTime.getD now
      let closedDuration := (now - start) / 1000
      if settings.detectors.microsleep = true ∧
          settings.thresholds.microsleepSeconds ≤ closedDuration then
        { state := AttentionState.microsleep, closedFrameCount := cfc,
          eyesClosedStartTime := some start }
      else if settings.detectors.drowsiness = true ∧
          settings.thresholds.drowsySeconds ≤ closedDuration then
        { state := AttentionState.drowsy, closedFrameCount := cfc,
          eyesClosedStartTime := some start }
      else
        { state := AttentionState.awake, closedFrameCount := cfc,
          eyesClosedStartTime := some start }
    else
      { state := AttentionState.awake, closedFrameCount := cfc,
        eyesClosedStartTime := eyesClosedStartTime }
  else
    { state := AttentionState.awake, closedFrameCount := 0,
      eyesClosedStartTime := none }

/-- Messages sent through chrome.runtime.sendMessage by the engine:
DROWSINESS_DETECTED alerts and ATTENTION_UPDATE periodic updates, with the
payload fields the source fills in. -/
inductive Message : Type
  | drowsinessDetected (state : AttentionState) (confidence : ℚ)
      (eyesClosedDuration : ℚ)
  | attentionUpdate (state : AttentionState) (confidence : ℚ) (earValue : ℚ)
      (eyesClosedDuration : ℚ) (timestamp : ℚ)
deriving DecidableEq, Repr

/-- triggerDrowsinessAlert: builds the DROWSINESS_DETECTED payload
(state, confidence, metrics.eyesClosedDuration). -/
def triggerDrowsinessAlert (state : AttentionState) (confidence : ℚ)
    (duration : ℚ) : Message :=
  Message.drowsinessDetected state confidence duration

/-- The closed-duration expression the source repeats:
eyesClosedStartTime ? (Date.now() - eyesClosedStartTime) / 1000 : 0. -/
def closedDurationSeconds (eyesClosedStartTime : Option ℚ) (now : ℚ) : ℚ :=
  match eyesClosedStartTime with
  | some t => (now - t) / 1000
  | none => 0

/-- sendAttentionUpdate: builds the ATTENTION_UPDATE payload with the literal
confidence 0.85, the EAR value, the current closed-duration (0 when not
latched) and the timestamp. -/
def sendAttentionUpdate (state : AttentionState) (ear : ℚ)
    (eyesClosedStartTime : Option ℚ) (now : ℚ) : Message :=
  Message.attentionUpdate state (85/100) ear
    (closedDurationSeconds eyesClosedStartTime now) now

/-- A per-frame observation from the landmark source: either landmarks with the
two per-eye EAR values, or no face detected (null landmarks). -/
inductive FrameObservation : Type
  | detected (leftEyeEAR rightEyeEAR : ℚ)
  | notDetected
deriving DecidableEq, Repr

/-- The no-face branch of handleLandmarks (lines 136 to 167): increment
closedFrameCount, latch eyesClosedStartTime once MIN_CLOSED_FRAMES is reached,
then escalate to microsleep or drowsy on the duration thresholds (no detector
flag checks), firing an alert with fixed confidence only when the state
actually changes; no periodic update is sent on this path. -/
def handleNoFace (settings : AttentionSettings) (now : ℚ) (s : EngineState) :
    EngineState × List Message :=
  let cfc := s.closedFrameCount + 1
  if MIN_CLOSED_FRAMES ≤ cfc then
    let start := s.eyesClosedStartTime.getD now
    let closedDuration := (now - start) / 1000
    if settings.thresholds.microsleepSeconds ≤ closedDuration then
      if s.currentAttentionState = AttentionState.microsleep then
        ({ eyesClosedStartTime := some start,
           currentAttentionState := s.currentAttentionState,
           closedFrameCount := cfc }, [])
      else
        ({ eyesClosedStartTime := some start,
           currentAttentionState := AttentionState.microsleep,
           closedFrameCount := cfc },
         [triggerDrowsinessAlert AttentionState.microsleep (99/100)
            closedDuration])
    else if settings.thresholds.drowsySeconds ≤ closedDuration then
      if s.currentAttentionState = AttentionState.drowsy then
        ({ eyesClosedStartTime := some start,
           currentAttentionState := s.currentAttentionState,
           closedFrameCount := cfc }, [])
      else
        ({ eyesClosedStartTime := some start,
           currentAttentionState := AttentionState.drowsy,
           closedFrameCount := cfc },
         [triggerDrowsinessAlert AttentionState.drowsy (94/100) closedDuration])
    else
      ({ eyesClosedStartTime := some start,
         currentAttentionState := s.currentAttentionState,
         closedFrameCount := cfc }, [])
  else
    ({ s with closedFrameCount := cfc }, [])

/-- The detected-face branch of handleLandmarks (lines 169 to 193): compute the
average EAR, run determineAttentionState, fire an alert exactly when the new
state differs from the previous one and is drowsy or microsleep (confidence
1 - ear / earThreshold, duration from the latch), assign the new state, and
send the periodic update. -/
def handleDetected (leftEyeEAR rightEyeEAR : ℚ) (settings : AttentionSettings)
    (now : ℚ) (s : EngineState) : EngineState × List Message :=
  let ear := computeAverageEAR leftEyeEAR rightEyeEAR
  let res := determineAttentionState ear settings now s.closedFrameCount
    s.eyesClosedStartTime
  let newState := res.state
  let alerts :=
    if newState ≠ s.currentAttentionState ∧
        (newState = AttentionState.drowsy ∨
         newState = AttentionState.microsleep) then
      [triggerDrowsinessAlert newState
        (1 - ear / settings.thresholds.earThreshold)
        (closedDurationSeconds res.eyesClosedStartTime now)]
    else []
  ({ eyesClosedStartTime := res.eyesClosedStartTime,
     currentAttentionState := newState,
     closedFrameCount := res.closedFrameCount },
   alerts ++ [sendAttentionUpdate newState ear res.eyesClosedStartTime now])

/-- handleLandmarks (lines 118 to 197): return immediately when the master
enabled flag is off, otherwise dispatch to the no-face or detected-face branch.
The result pairs the new engine state with the messages sent this frame. -/
def handleLandmarks (obs : FrameObservation) (settings : AttentionSettings)
    (now : ℚ) (s : EngineState) : EngineState × List Message :=
  if settings.enabled = true then
    match obs with
    | FrameObservation.notDetected => handleNoFace settings now s
    | FrameObservation.detected l r => handleDetected l r settings now s
  else (s, [])

/-- One processed frame: its observation, the settings snapshot current at its
arrival, and its wall-clock timestamp in milliseconds. -/
structure Frame : Type where
  obs : FrameObservation
  settings : AttentionSettings
  now : ℚ
deriving DecidableEq, Repr

/-- Process one frame against an engine state. -/
def processFrame (s : EngineState) (f : Frame) : EngineState × List Message :=
  handleLandmarks f.obs f.settings f.now s

/-- Run the engine over a frame list starting from a given state, tracking the
state only. -/
def runState (s : EngineState) (frames : List Frame) : EngineState :=
  frames.foldl (fun s f => (processFrame s f).1) s

/-- Run the engine over a frame list from the initial state. -/
def runEngine (frames : List Frame) : EngineState :=
  runState initialEngineState frames

/-- Run the engine over a frame list starting from a given state, accumulating
every message emitted, in order. -/
def runLog (s : EngineState) : List Frame → EngineState × List Message
  | [] => (s, [])
  | f :: fs =>
      let r := processFrame s f
      let rest := runLog r.1 fs
      (rest.1, r.2 ++ rest.2)

/-- Whether a frame counts as closed for the debounce counter: no face, or a
detected face whose average EAR is below the frame's earThreshold. -/
def countsClosed (f : Frame) : Bool :=
  match f.obs with
  | FrameObservation.notDetected => true
  | FrameObservation.detected l r =>
      decide (computeAverageEAR l r < f.settings.thresholds.earThreshold)

/-- Length of the maximal suffix of the frame list consisting of frames that
count as closed. -/
def closedSuffixLen (frames : List Frame) : Nat :=
  (frames.reverse.takeWhile countsClosed).length

/-- Whether a message is a DROWSINESS_DETECTED alert. -/
def isAlert : Message → Bool
  | Message.drowsinessDetected _ _ _ => true
  | Message.attentionUpdate _ _ _ _ _ => false

/-- Whether a message is an ATTENTION_UPDATE periodic update. -/
def isUpdate : Message → Bool
  | Message.drowsinessDetected _ _ _ => false
  | Message.attentionUpdate _ _ _ _ _ => true

/-- The confidence field of a message payload. -/
def messageConfidence : Message → ℚ
  | Message.drowsinessDetected _ c _ => c
  | Message.attentionUpdate _ c _ _ _ => c

/-- The state field of a message payload. -/
def messageState : Message → AttentionState
  | Message.drowsinessDetected st _ _ => st
  | Message.attentionUpdate st _ _ _ _ => st

/-- The metrics.eyesClosedDuration field of a message payload. -/
def messageClosedDuration : Message → ℚ
  | Message.drowsinessDetected _ _ d => d
  | Message.attentionUpdate _ _ _ d _ => d

/-! ## Concrete inputs used in counterexamples and witnesses -/

/-- Settings with the microsleep detector disabled but attention detection
enabled; both duration thresholds at 0 so escalation is immediate once the
debounce floor is reached. -/
def stC1 : AttentionSettings :=
  { enabled := true
    thresholds := { earThreshold := 1/5, drowsySeconds := 0, microsleepSeconds := 0 }
    detectors := { drowsiness := true, microsleep := false } }

/-- One no-face frame under stC1, at time 0. -/
def frC1 : Frame :=
  { obs := FrameObservation.notDetected, settings := stC1, now := 0 }

/-- Fifteen consecutive no-face frames under stC1. -/
def framesC1 : List Frame := List.replicate 15 frC1

/-- Enabled settings used for the C2 counterexample. -/
def stC2 : AttentionSettings :=
  { enabled := true
    thresholds := { earThreshold := 1/4, drowsySeconds := 2, microsleepSeconds := 5 }
    detectors := { drowsiness := true, microsleep := true } }

/-- Enabled settings with both detectors on, earThreshold 1, both duration
thresholds 0: used to show a negative EAR is processed, not rejected. -/
def stC3 : AttentionSettings :=
  { enabled := true
    thresholds := { earThreshold := 1, drowsySeconds := 0, microsleepSeconds := 0 }
    detectors := { drowsiness := true, microsleep := true } }

/-- A detected frame whose per-eye EAR values are negative, at time 0. -/
def frC3 : Frame :=
  { obs := FrameObservation.detected (-1) (-1), settings := stC3, now := 0 }

/-- Fifteen consecutive negative-EAR frames under stC3. -/
def framesC3 : List Frame := List.replicate 15 frC3

/-- Settings used in the concrete C5 witness. -/
def stC5 : AttentionSettings :=
  { enabled := true
    thresholds := { earThreshold := 1/4, drowsySeconds := 1, microsleepSeconds := 3 }
    detectors := { drowsiness := true, microsleep := true } }

/-- A no-face (hence closed-counting) frame for the C5 witness. -/
def frC5 : Frame :=
  { obs := FrameObservation.notDetected, settings := stC5, now := 7 }

/-- An open detected frame for the C5 witness (average EAR 1 is above the
threshold 1/4). -/
def frC5open : Frame :=
  { obs := FrameObservation.detected 1 1, settings := stC5, now := 8 }

/-- Settings used in the concrete C6 witness. -/
def stC6 : AttentionSettings :=
  { enabled := true
    thresholds := { earThreshold := 1/4, drowsySeconds := 2, microsleepSeconds := 5 }
    detectors := { drowsiness := true, microsleep := true } }

/-- A no-face frame for the C6 witness. -/
def frC6 : Frame :=
  { obs := FrameObservation.notDetected, settings := stC6, now := 0 }

/-- Sixteen consecutive no-face frames under stC6. -/
def framesC6 : List Frame := List.replicate 16 frC6

/-- Settings used in the concrete C7 witness. -/
def stC7 : AttentionSettings :=
  { enabled := true
    thresholds := { earThreshold := 1/4, drowsySeconds := 2, microsleepSeconds := 5 }
    detectors := { drowsiness := true, microsleep := true } }

/-- Settings used for the C8 counterexample. -/
def stC8 : AttentionSettings :=
  { enabled := true
    thresholds := { earThreshold := 3/10, drowsySeconds := 0, microsleepSeconds := 0 }
    detectors := { drowsiness := true, microsleep := true } }

/-- One no-face frame under stC8, at time 0. -/
def frC8 : Frame :=
  { obs := FrameObservation.notDetected, settings := stC8, now := 0 }

/-- Fifteen consecutive no-face frames under stC8. -/
def framesC8 : List Frame := List.replicate 15 frC8

/-- Settings used in the concrete C9 witness. -/
def stC9 : AttentionSettings :=
  { enabled := true
    thresholds := { earThreshold := 1/5, drowsySeconds := 0, microsleepSeconds := 0 }
    detectors := { drowsiness := true, microsleep := true } }

/-- Settings used in the concrete C10 witness. -/
def stC10 : AttentionSettings :=
  { enabled := true
    thresholds := { earThreshold := 1/10, drowsySeconds := 2, microsleepSeconds := 5 }
    detectors := { drowsiness := true, microsleep := true } }

example :
    (determineAttentionState (1/10)
      { enabled := true, thresholds := { earThreshold := 1/5, drowsySeconds := 2, microsleepSeconds := 5 },
        detectors := { drowsiness := true, microsleep := true } }
      0 0 none).state = AttentionState.awake := by
  norm_num [determineAttentionState, MIN_CLOSED_FRAMES]

example :
    (determineAttentionState (1/10)
      { enabled := true, thresholds := { earThreshold := 1/5, drowsySeconds := 2, microsleepSeconds := 5 },
        detectors := { drowsiness := true, microsleep := true } }
      3000 14 (some 0)).state = AttentionState.drowsy := by
  norm_num [determineAttentionState, MIN_CLOSED_FRAMES]

/-! ## Helper lemmas about single steps -/

/-- Dispatch: an enabled no-face frame runs the no-face branch. -/
theorem handleLandmarks_notDetected (st : AttentionSettings) (now : ℚ)
    (s : EngineState) (hen : st.enabled = true) :
    handleLandmarks FrameObservation.notDetected st now s =
      handleNoFace st now s := by
  simp [handleLandmarks, hen]

/-- Dispatch: an enabled detected-face frame runs the detected branch. -/
theorem handleLandmarks_detected (l r : ℚ) (st : AttentionSettings) (now : ℚ)
    (s : EngineState) (hen : st.enabled = true) :
    handleLandmarks (FrameObservation.detected l r) st now s =
      handleDetected l r st now s := by
  simp [handleLandmarks, hen]

/-- When the master flag is off, a frame changes nothing and emits nothing. -/
theorem handleLandmarks_disabled (obs : FrameObservation)
    (st : AttentionSettings) (now : ℚ) (s : EngineState)
    (h : st.enabled = false) : handleLandmarks obs st now s = (s, []) := by
  simp [handleLandmarks, h]

/-- On an open frame the classifier resets both counters and returns awake. -/
theorem determineAttentionState_open (ear : ℚ) (st : AttentionSettings)
    (now : ℚ) (cfc : Nat) (latch : Option ℚ)
    (h : ¬ ear < st.thresholds.earThreshold) :
    determineAttentionState ear st now cfc latch =
      { state := AttentionState.awake, closedFrameCount := 0,
        eyesClosedStartTime := none } := by
  simp [determineAttentionState, h]

/-- The classifier always leaves closedFrameCount incremented on a closed frame. -/
theorem determineAttentionState_closed_cfc (ear : ℚ) (st : AttentionSettings)
    (now : ℚ) (cfc : Nat) (latch : Option ℚ)
    (h : ear < st.thresholds.earThreshold) :
    (determineAttentionState ear st now cfc latch).closedFrameCount = cfc + 1 := by
  unfold determineAttentionState
  simp only [h, if_true, if_pos]
  split
  · split
    · rfl
    · split
      · rfl
      · rfl
  · rfl

/-- The latch the classifier leaves behind on a closed frame: set to the old
latch value (or the current time when there was none) once the debounce floor
is reached, untouched below the floor. -/
theorem determineAttentionState_closed_latch (ear : ℚ) (st : AttentionSettings)
    (now : ℚ) (cfc : Nat) (latch : Option ℚ)
    (h : ear < st.thresholds.earThreshold) :
    (determineAttentionState ear st now cfc latch).eyesClosedStartTime =
      if MIN_CLOSED_FRAMES ≤ cfc + 1 then some (latch.getD now) else latch := by
  unfold determineAttentionState
  simp only [h, if_pos]
  split
  · split
    · rfl
    · split
      · rfl
      · rfl
  · rfl

/-- The detected-face branch on an open frame: full reset, awake, no alert,
one periodic update. -/
theorem handleDetected_open (l r : ℚ) (st : AttentionSettings) (now : ℚ)
    (s : EngineState) (h : st.thresholds.earThreshold ≤ computeAverageEAR l r) :
    handleDetected l r st now s =
      ({ eyesClosedStartTime := none,
         currentAttentionState := AttentionState.awake, closedFrameCount := 0 },
       [sendAttentionUpdate AttentionState.awake (computeAverageEAR l r) none
          now]) := by
  have h' : ¬ computeAverageEAR l r < st.thresholds.earThreshold := not_lt.2 h
  simp [handleDetected, determineAttentionState_open _ _ _ _ _ h']

/-- The no-face branch always increments closedFrameCount. -/
theorem handleNoFace_cfc (st : AttentionSettings) (now : ℚ) (s : EngineState) :
    (handleNoFace st now s).1.closedFrameCount = s.closedFrameCount + 1 := by
  simp only [handleNoFace]
  split_ifs <;> rfl

/-- The latch left by the no-face branch: set at the debounce floor, untouched
below it. -/
theorem handleNoFace_latch (st : AttentionSettings) (now : ℚ) (s : EngineState) :
    (handleNoFace st now s).1.eyesClosedStartTime =
      if MIN_CLOSED_FRAMES ≤ s.closedFrameCount + 1 then
        some (s.eyesClosedStartTime.getD now)
      else s.eyesClosedStartTime := by
  simp only [handleNoFace]
  split_ifs <;> rfl

/-- Any frame that counts closed increments closedFrameCount when enabled. -/
theorem processFrame_closed_cfc (s : EngineState) (f : Frame)
    (hen : f.settings.enabled = true) (hc : countsClosed f = true) :
    (processFrame s f).1.closedFrameCount = s.closedFrameCount + 1 := by
  rcases f with ⟨obs, st, now⟩
  have hen' : st.enabled = true := hen
  cases obs with
  | notDetected =>
      unfold processFrame handleLandmarks
      rw [if_pos hen']
      exact handleNoFace_cfc st now s
  | detected l r =>
      have hlt : computeAverageEAR l r < st.thresholds.earThreshold := by
        simpa [countsClosed] using hc
      unfold processFrame handleLandmarks
      rw [if_pos hen']
      show (handleDetected l r st now s).1.closedFrameCount = _
      simp only [handleDetected]
      exact determineAttentionState_closed_cfc _ _ _ _ _ hlt

/-- Any frame that counts closed latches at the debounce floor and otherwise
leaves the latch untouched, when enabled. -/
theorem processFrame_closed_latch (s : EngineState) (f : Frame)
    (hen : f.settings.enabled = true) (hc : countsClosed f = true) :
    (processFrame s f).1.eyesClosedStartTime =
      if MIN_CLOSED_FRAMES ≤ s.closedFrameCount + 1 then
        some (s.eyesClosedStartTime.getD f.now)
      else s.eyesClosedStartTime := by
  rcases f with ⟨obs, st, now⟩
  have hen' : st.enabled = true := hen
  cases obs with
  | notDetected =>
      unfold processFrame handleLandmarks
      rw [if_pos hen']
      exact handleNoFace_latch st now s
  | detected l r =>
      have hlt : computeAverageEAR l r < st.thresholds.earThreshold := by
        simpa [countsClosed] using hc
      unfold processFrame handleLandmarks
      rw [if_pos hen']
      show (handleDetected l r st now s).1.eyesClosedStartTime = _
      simp only [handleDetected]
      exact determineAttentionState_closed_latch _ _ _ _ _ hlt

/-- Any enabled frame that counts open fully resets the tracking state. -/
theorem processFrame_open (s : EngineState) (f : Frame)
    (hen : f.settings.enabled = true) (hc : countsClosed f = false) :
    (processFrame s f).1 =
      { eyesClosedStartTime := none,
        currentAttentionState := AttentionState.awake,
        closedFrameCount := 0 } := by
  rcases f with ⟨obs, st, now⟩
  have hen' : st.enabled = true := hen
  cases obs with
  | notDetected => simp [countsClosed] at hc
  | detected l r =>
      have hge : st.thresholds.earThreshold ≤ computeAverageEAR l r := by
        simpa [countsClosed] using hc
      unfold processFrame handleLandmarks
      rw [if_pos hen']
      show (handleDetected l r st now s).1 = _
      rw [handleDetected_open l r st now s hge]

/-! ## C1: disabled detectors -/

/-- C1 counterexample: with the microsleep detector flag false, a run of
fifteen no-face frames still drives the computed attention state to
Microsleep, because the no-face branch of handleLandmarks never consults the
detector flags.  This falsifies the claim that the state is never Microsleep
when the flag is false, including frames where no face is detected. -/
theorem C1_counterexample :
    stC1.detectors.microsleep = false ∧
    (runEngine framesC1).currentAttentionState = AttentionState.microsleep := by
  refine ⟨rfl, ?_⟩
  norm_num [framesC1, runEngine, runState, processFrame, handleLandmarks,
    handleNoFace, stC1, frC1, initialEngineState, MIN_CLOSED_FRAMES,
    triggerDrowsinessAlert, List.replicate]
  decide

/-- C1 amended: on detected-face frames the claim does hold, because
determineAttentionState guards each threshold with its detector flag: with the
microsleep flag false a detected-face frame never yields Microsleep, and with
the drowsiness flag false it never yields Drowsy.  (The no-face branch is the
exception exhibited by the counterexample.) -/
theorem C1_amended_detected_respects_flags (l r : ℚ) (st : AttentionSettings)
    (now : ℚ) (s : EngineState) (hen : st.enabled = true) :
    (st.detectors.microsleep = false →
      (handleLandmarks (FrameObservation.detected l r) st now s).1.currentAttentionState ≠
        AttentionState.microsleep) ∧
    (st.detectors.drowsiness = false →
      (handleLandmarks (FrameObservation.detected l r) st now s).1.currentAttentionState ≠
        AttentionState.drowsy) := by
  unfold handleLandmarks
  rw [if_pos hen]
  show (st.detectors.microsleep = false →
      (handleDetected l r st now s).1.currentAttentionState ≠ AttentionState.microsleep) ∧ _
  simp only [handleDetected, determineAttentionState]
  constructor
  · intro hm
    split_ifs with h1 h2 h3 h4 <;> simp_all
  · intro hd
    split_ifs with h1 h2 h3 h4 <;> simp_all

/-- Witness for the C1 amended theorem at a concrete input: a detected closed
frame under stC1 (microsleep detector off, drowsiness on) cannot leave the
state Microsleep. -/
theorem C1_amended_witness :
    (handleLandmarks (FrameObservation.detected (1/10) (1/10)) stC1 0
      initialEngineState).1.currentAttentionState ≠ AttentionState.microsleep :=
  (C1_amended_detected_respects_flags (1/10) (1/10) stC1 0 initialEngineState
    rfl).1 rfl

/-! ## C2: periodic update per frame -/

/-- C2 counterexample: an enabled frame whose observation is NotDetected emits
no message at all, in particular no periodic attention update, falsifying the
claim that exactly one periodic update is emitted on every enabled frame
whether the observation is Detected or NotDetected. -/
theorem C2_counterexample :
    stC2.enabled = true ∧
    (handleLandmarks FrameObservation.notDetected stC2 0 initialEngineState).2
      = [] := by
  refine ⟨rfl, ?_⟩
  norm_num [handleLandmarks, handleNoFace, stC2, initialEngineState,
    MIN_CLOSED_FRAMES]

/-- C2 amended: exactly one periodic update is emitted per enabled
detected-face frame, carrying the newly computed state, a confidence value,
the EAR, and the current closed-duration (0 when not latched); no-face frames
emit no periodic update. -/
theorem C2_amended_update_policy (l r : ℚ) (st : AttentionSettings) (now : ℚ)
    (s : EngineState) (hen : st.enabled = true) :
    (handleLandmarks (FrameObservation.detected l r) st now s).2.filter isUpdate
      = [sendAttentionUpdate
          (handleLandmarks (FrameObservation.detected l r) st now
            s).1.currentAttentionState
          (computeAverageEAR l r)
          (handleLandmarks (FrameObservation.detected l r) st now
            s).1.eyesClosedStartTime
          now] ∧
    ((handleLandmarks (FrameObservation.detected l r) st now
        s).1.eyesClosedStartTime = none →
      messageClosedDuration
        (sendAttentionUpdate
          (handleLandmarks (FrameObservation.detected l r) st now
            s).1.currentAttentionState
          (computeAverageEAR l r)
          (handleLandmarks (FrameObservation.detected l r) st now
            s).1.eyesClosedStartTime
          now) = 0) ∧
    (handleLandmarks FrameObservation.notDetected st now s).2.filter isUpdate
      = [] := by
  rw [handleLandmarks_detected l r st now s hen,
    handleLandmarks_notDetected st now s hen]
  refine ⟨?_, ?_, ?_⟩
  · simp only [handleDetected]
    split_ifs <;>
      simp [isUpdate, triggerDrowsinessAlert, sendAttentionUpdate,
        List.filter_append]
  · intro h
    rw [h]
    simp [sendAttentionUpdate, messageClosedDuration, closedDurationSeconds]
  · simp only [handleNoFace]
    split_ifs <;> simp [isUpdate, triggerDrowsinessAlert]

/-- Witness for the C2 amended theorem at a concrete input: an enabled no-face
frame yields no periodic update. -/
theorem C2_amended_witness :
    (handleLandmarks FrameObservation.notDetected stC2 3 initialEngineState).2.filter
      isUpdate = [] :=
  (C2_amended_update_policy 1 1 stC2 3 initialEngineState rfl).2.2

/-! ## C3: negative EAR input -/

set_option maxRecDepth 4000 in
/-- C3 counterexample: a frame with negative EAR is not processed as if
NotDetected: the outputs of the two frames differ (the detected path emits a
periodic update, the no-face path emits nothing), and after fifteen
negative-EAR frames an alert fires whose confidence 1 - (-1)/1 = 2 was computed
from the invalid value, so the value was compared against earThreshold and did
influence classification and alert confidence. -/
theorem C3_counterexample :
    (handleLandmarks (FrameObservation.detected (-1) (-1)) stC3 0
        initialEngineState).2 ≠
      (handleLandmarks FrameObservation.notDetected stC3 0
        initialEngineState).2 ∧
    (runLog initialEngineState framesC3).2.filter isAlert =
      [Message.drowsinessDetected AttentionState.microsleep 2 0] := by
  constructor
  · norm_num [handleLandmarks, handleDetected, handleNoFace, stC3,
      initialEngineState, MIN_CLOSED_FRAMES, determineAttentionState,
      computeAverageEAR, sendAttentionUpdate, closedDurationSeconds,
      triggerDrowsinessAlert]
  · norm_num [framesC3, runLog, processFrame, handleLandmarks, handleDetected,
      stC3, frC3, initialEngineState, MIN_CLOSED_FRAMES,
      determineAttentionState, computeAverageEAR, sendAttentionUpdate,
      closedDurationSeconds, triggerDrowsinessAlert, List.replicate, isAlert]
    decide

/-- C3 amended: a negative average EAR goes down the ordinary detected-face
path: it is compared against earThreshold, counts the frame as closed
(incrementing closedFrameCount), and any alert fired on such a frame carries
confidence 1 - ear/earThreshold, which exceeds 1. -/
theorem C3_amended_negative_ear_processed (l r : ℚ) (st : AttentionSettings)
    (now : ℚ) (s : EngineState) (m : Message)
    (hneg : computeAverageEAR l r < 0)
    (hthr : 0 < st.thresholds.earThreshold) (hen : st.enabled = true) :
    (handleLandmarks (FrameObservation.detected l r) st now
        s).1.closedFrameCount = s.closedFrameCount + 1 ∧
    (m ∈ (handleLandmarks (FrameObservation.detected l r) st now s).2 →
      isAlert m = true → 1 < messageConfidence m) := by
  have hlt : computeAverageEAR l r < st.thresholds.earThreshold :=
    lt_trans hneg hthr
  constructor
  · exact processFrame_closed_cfc s
      { obs := FrameObservation.detected l r, settings := st, now := now }
      hen (by simpa [countsClosed] using hlt)
  · intro hm ha
    have hconf : (1 : ℚ) < 1 - computeAverageEAR l r / st.thresholds.earThreshold := by
      have hdivneg : computeAverageEAR l r / st.thresholds.earThreshold < 0 :=
        div_neg_of_neg_of_pos hneg hthr
      linarith
    revert hm
    rw [handleLandmarks_detected l r st now s hen]
    simp only [handleDetected, List.mem_append]
    rintro (hmem | hmem)
    · revert hmem
      split_ifs
      · intro hmem
        rcases List.mem_singleton.1 hmem with rfl
        simpa [triggerDrowsinessAlert, messageConfidence] using hconf
      · intro hmem
        exact absurd hmem (List.not_mem_nil m)
    · rcases List.mem_singleton.1 hmem with rfl
      simp [sendAttentionUpdate, isAlert] at ha

/-- Witness for the C3 amended theorem at a concrete input: the negative-EAR
frame increments closedFrameCount from the initial state. -/
theorem C3_amended_witness :
    (handleLandmarks (FrameObservation.detected (-1) (-1)) stC3 0
        initialEngineState).1.closedFrameCount =
      initialEngineState.closedFrameCount + 1 :=
  (C3_amended_negative_ear_processed (-1) (-1) stC3 0 initialEngineState
    (Message.drowsinessDetected AttentionState.awake 0 0)
    (by norm_num [computeAverageEAR]) (by norm_num [stC3]) rfl).1

/-! ## C4: alert exactly on a rising edge -/

/-- C4: on every processed frame, the number of alert messages emitted equals 1
exactly when the previous state differs from the newly computed state and the
new state is Drowsy or Microsleep, and equals 0 otherwise.  This holds on both
branches (detected and no-face) and on disabled frames. -/
theorem C4_alert_iff_rising_edge (obs : FrameObservation)
    (st : AttentionSettings) (now : ℚ) (s : EngineState) :
    ((handleLandmarks obs st now s).2.filter isAlert).length =
      (if s.currentAttentionState ≠
            (handleLandmarks obs st now s).1.currentAttentionState ∧
          ((handleLandmarks obs st now s).1.currentAttentionState =
              AttentionState.drowsy ∨
            (handleLandmarks obs st now s).1.currentAttentionState =
              AttentionState.microsleep)
        then 1 else 0) := by
  by_cases hen : st.enabled = true
  · cases obs with
    | notDetected =>
        rw [handleLandmarks_notDetected st now s hen]
        simp only [handleNoFace]
        split_ifs with h1 h2 h3 h4 h5 <;>
          simp_all [isAlert, triggerDrowsinessAlert]
    | detected l r =>
        rw [handleLandmarks_detected l r st now s hen]
        simp only [handleDetected]
        split_ifs with hA hR
        · simp [isAlert, triggerDrowsinessAlert, sendAttentionUpdate,
            List.filter_append]
        · exact absurd ⟨Ne.symm hA.1, hA.2⟩ hR
        · rename_i hR'
          exact absurd ⟨Ne.symm hR'.1, hR'.2⟩ hA
        · simp [isAlert, sendAttentionUpdate, List.filter_append]
  · have hb : st.enabled = false := by
      revert hen
      cases st.enabled <;> simp
    rw [handleLandmarks_disabled obs st now s hb]
    simp

/-! ## C5: blink filtering -/

/-- A closed frame processed below the debounce floor from a fresh-streak
state leaves the latch unset, the state awake, increments the counter, and
emits no alert and no nonzero closed-duration. -/
theorem processFrame_closed_small (s : EngineState) (f : Frame)
    (hen : f.settings.enabled = true) (hc : countsClosed f = true)
    (hsl : s.eyesClosedStartTime = none)
    (hss : s.currentAttentionState = AttentionState.awake)
    (hcount : s.closedFrameCount + 1 < MIN_CLOSED_FRAMES) :
    (processFrame s f).1 =
      { eyesClosedStartTime := none,
        currentAttentionState := AttentionState.awake,
        closedFrameCount := s.closedFrameCount + 1 } ∧
    ∀ m ∈ (processFrame s f).2,
      isAlert m = false ∧ messageClosedDuration m = 0 := by
  rcases f with ⟨obs, st, now⟩
  have hen' : st.enabled = true := hen
  have hnot : ¬ MIN_CLOSED_FRAMES ≤ s.closedFrameCount + 1 := Nat.not_le.2 hcount
  rcases s with ⟨sl, ss, sc⟩
  subst hsl; subst hss
  cases obs with
  | notDetected =>
      simp only [processFrame]
      rw [handleLandmarks_notDetected st now _ hen']
      simp only [handleNoFace]
      rw [if_neg hnot]
      exact ⟨rfl, fun m hm => absurd hm (List.not_mem_nil m)⟩
  | detected l r =>
      have hlt : computeAverageEAR l r < st.thresholds.earThreshold := by
        simpa [countsClosed] using hc
      simp only [processFrame]
      rw [handleLandmarks_detected l r st now _ hen']
      simp only [handleDetected, determineAttentionState]
      rw [if_pos hlt, if_neg hnot]
      refine ⟨rfl, ?_⟩
      intro m hm
      simp only [List.mem_append] at hm
      rcases hm with hm | hm
      · simp at hm
      · rcases List.mem_singleton.1 hm with rfl
        simp [sendAttentionUpdate, isAlert, messageClosedDuration,
          closedDurationSeconds]

/-- Running a streak of closed frames that stays below the debounce floor from
a fresh-streak state: latch stays unset, state stays awake, the counter counts
the frames, every emitted message is a non-alert with closed-duration 0. -/
theorem runClosedStreak_small (frames : List Frame) :
    ∀ s : EngineState, s.eyesClosedStartTime = none →
      s.currentAttentionState = AttentionState.awake →
      s.closedFrameCount + frames.length < MIN_CLOSED_FRAMES →
      (∀ f ∈ frames, f.settings.enabled = true ∧ countsClosed f = true) →
      (runState s frames).eyesClosedStartTime = none ∧
      (runState s frames).currentAttentionState = AttentionState.awake ∧
      (runState s frames).closedFrameCount =
        s.closedFrameCount + frames.length ∧
      ∀ m ∈ (runLog s frames).2,
        isAlert m = false ∧ messageClosedDuration m = 0 := by
  induction frames with
  | nil =>
      intro s hsl hss _ _
      exact ⟨hsl, hss, by simp [runState], by simp [runLog]⟩
  | cons f fs ih =>
      intro s hsl hss hlen hcl
      have hf := hcl f (by simp)
      have hstep := processFrame_closed_small s f hf.1 hf.2 hsl hss
        (by simp at hlen; omega)
      have hrec := ih (processFrame s f).1
        (by rw [hstep.1]) (by rw [hstep.1])
        (by rw [hstep.1]; simp at hlen ⊢; omega)
        (fun g hg => hcl g (by simp [hg]))
      refine ⟨?_, ?_, ?_, ?_⟩
      · show (runState (processFrame s f).1 fs).eyesClosedStartTime = none
        exact hrec.1
      · exact hrec.2.1
      · show (runState (processFrame s f).1 fs).closedFrameCount = _
        rw [hrec.2.2.1, hstep.1]
        simp
        omega
      · intro m hm
        simp only [runLog, List.mem_append] at hm
        rcases hm with hm | hm
        · exact hstep.2 m hm
        · exact hrec.2.2.2 m hm

/-- C5: a closure streak shorter than MIN_CLOSED_FRAMES starting from a
fresh-streak state never sets the latch, keeps the state Awake on every frame
of the streak with the counter equal to the number of frames seen, emits no
alert and only zero closed-durations, and an open frame afterwards resets
everything. -/
theorem C5_blink_filtering (s0 : EngineState) (frames : List Frame) (n : ℕ)
    (m : Message) (g : Frame)
    (h0l : s0.eyesClosedStartTime = none)
    (h0s : s0.currentAttentionState = AttentionState.awake)
    (h0c : s0.closedFrameCount = 0)
    (hlen : frames.length < MIN_CLOSED_FRAMES)
    (hcl : ∀ f ∈ frames, f.settings.enabled = true ∧ countsClosed f = true)
    (hn : n ≤ frames.length)
    (hgen : g.settings.enabled = true) (hgo : countsClosed g = false) :
    (runState s0 (frames.take n)).eyesClosedStartTime = none ∧
    (runState s0 (frames.take n)).currentAttentionState =
      AttentionState.awake ∧
    (runState s0 (frames.take n)).closedFrameCount = n ∧
    (m ∈ (runLog s0 frames).2 →
      isAlert m = false ∧ messageClosedDuration m = 0) ∧
    (processFrame (runState s0 frames) g).1 =
      { eyesClosedStartTime := none,
        currentAttentionState := AttentionState.awake,
        closedFrameCount := 0 } := by
  have htake := runClosedStreak_small (frames.take n) s0 h0l h0s
    (by rw [h0c, List.length_take]; omega)
    (fun f hf => hcl f (List.take_subset n frames hf))
  have hfull := runClosedStreak_small frames s0 h0l h0s
    (by rw [h0c]; omega) hcl
  refine ⟨htake.1, htake.2.1, ?_, fun hm => hfull.2.2.2 m hm, ?_⟩
  · rw [htake.2.2.1, h0c, List.length_take]
    omega
  · exact processFrame_open (runState s0 frames) g hgen hgo

/-- Witness for C5 at a concrete input: a three-frame closed streak, inspected
after two frames, leaves the counter at 2; the subsequent open frame resets the
tracking state. -/
theorem C5_blink_filtering_witness :
    (runState initialEngineState ([frC5, frC5, frC5].take 2)).closedFrameCount
      = 2 ∧
    (processFrame (runState initialEngineState [frC5, frC5, frC5])
      frC5open).1 =
      { eyesClosedStartTime := none,
        currentAttentionState := AttentionState.awake,
        closedFrameCount := 0 } := by
  have h := C5_blink_filtering initialEngineState [frC5, frC5, frC5] 2
    (Message.drowsinessDetected AttentionState.awake 0 0) frC5open
    rfl rfl rfl (by decide)
    (by decide)
    (by decide) rfl
    (by norm_num [countsClosed, frC5open, computeAverageEAR, stC5])
  exact ⟨h.2.2.1, h.2.2.2.2⟩

/-! ## C6: latch invariant -/

/-- Appending a closed-counting frame extends the maximal closed suffix by
one. -/
theorem closedSuffixLen_append_closed (frames : List Frame) (f : Frame)
    (hc : countsClosed f = true) :
    closedSuffixLen (frames ++ [f]) = closedSuffixLen frames + 1 := by
  simp [closedSuffixLen, List.takeWhile_cons, hc]

/-- Appending an open frame empties the maximal closed suffix. -/
theorem closedSuffixLen_append_open (frames : List Frame) (f : Frame)
    (hc : countsClosed f = false) :
    closedSuffixLen (frames ++ [f]) = 0 := by
  simp [closedSuffixLen, List.takeWhile_cons, hc]

/-- Unrolling a run from the right. -/
theorem runState_append (s : EngineState) (frames : List Frame) (f : Frame) :
    runState s (frames ++ [f]) = (processFrame (runState s frames) f).1 := by
  simp [runState, List.foldl_append]

/-- Core invariant for C6, by induction over the frame sequence: after any
run of enabled frames from the initial state, the counter equals the length of
the maximal closed suffix and the latch is set exactly when the counter has
reached the debounce floor. -/
theorem runEngine_latch_core (frames : List Frame)
    (hen : ∀ f ∈ frames, f.settings.enabled = true) :
    (runEngine frames).closedFrameCount = closedSuffixLen frames ∧
    ((runEngine frames).eyesClosedStartTime.isSome ↔
      MIN_CLOSED_FRAMES ≤ (runEngine frames).closedFrameCount) := by
  induction frames using List.reverseRecOn with
  | nil =>
      refine ⟨rfl, ?_⟩
      simp [runEngine, runState, initialEngineState, MIN_CLOSED_FRAMES]
  | append_singleton fs f ih =>
      have henf : f.settings.enabled = true := hen f (by simp)
      obtain ⟨ih1, ih2⟩ := ih (fun g hg => hen g (by simp [hg]))
      simp only [runEngine] at ih1 ih2 ⊢
      rw [runState_append]
      by_cases hc : countsClosed f = true
      · have hcfc := processFrame_closed_cfc (runState initialEngineState fs)
          f henf hc
        have hlatch := processFrame_closed_latch (runState initialEngineState fs)
          f henf hc
        rw [closedSuffixLen_append_closed fs f hc]
        refine ⟨?_, ?_⟩
        · rw [hcfc, ih1]
        · rw [hcfc, hlatch]
          by_cases h15 : MIN_CLOSED_FRAMES ≤
              (runState initialEngineState fs).closedFrameCount + 1
          · rw [if_pos h15]
            simpa using h15
          · rw [if_neg h15, ih2]
            constructor
            · intro hle
              exact absurd (le_trans hle (Nat.le_succ _)) h15
            · intro hle
              exact absurd hle h15
      · have hcf : countsClosed f = false := by
          revert hc
          cases countsClosed f <;> simp
        have hopen := processFrame_open (runState initialEngineState fs)
          f henf hcf
        rw [closedSuffixLen_append_open fs f hcf, hopen]
        exact ⟨rfl, by simp [MIN_CLOSED_FRAMES]⟩

/-- C6: after processing any sequence of enabled frames from the initial
state, the latch is set exactly when the counter has reached the debounce
floor; the counter equals the length of the maximal suffix of frames counted
closed (so every frame since the latch was set has been counted closed); a
further closed frame never re-latches an already-set latch; and an open frame
clears it immediately. -/
theorem C6_latch_iff_debounced (frames : List Frame)
    (hen : ∀ f ∈ frames, f.settings.enabled = true)
    (g : Frame) (t : ℚ) (hgen : g.settings.enabled = true) :
    ((runEngine frames).eyesClosedStartTime.isSome ↔
      MIN_CLOSED_FRAMES ≤ (runEngine frames).closedFrameCount) ∧
    (runEngine frames).closedFrameCount = closedSuffixLen frames ∧
    (countsClosed g = true →
      (runEngine frames).eyesClosedStartTime = some t →
      (processFrame (runEngine frames) g).1.eyesClosedStartTime = some t) ∧
    (countsClosed g = false →
      (processFrame (runEngine frames) g).1.eyesClosedStartTime = none) := by
  obtain ⟨h1, h2⟩ := runEngine_latch_core frames hen
  refine ⟨h2, h1, ?_, ?_⟩
  · intro hcg hlt
    rw [processFrame_closed_latch (runEngine frames) g hgen hcg, hlt]
    split <;> simp
  · intro hog
    rw [processFrame_open (runEngine frames) g hgen hog]

/-- Witness for C6 at a concrete input: the latch-iff-floor and
counter-equals-suffix facts instantiated at a sixteen-frame no-face run. -/
theorem C6_latch_iff_debounced_witness :
    ((runEngine framesC6).eyesClosedStartTime.isSome ↔
      MIN_CLOSED_FRAMES ≤ (runEngine framesC6).closedFrameCount) ∧
    (runEngine framesC6).closedFrameCount = closedSuffixLen framesC6 :=
  ⟨(C6_latch_iff_debounced framesC6 (by decide) frC6 0 rfl).1,
   (C6_latch_iff_debounced framesC6 (by decide) frC6 0 rfl).2.1⟩

/-! ## C7: instantaneous recovery on an open frame -/

/-- C7: any enabled detected frame whose average EAR is at or above
earThreshold resets the tracking state to awake with counter 0 and latch
cleared, regardless of the prior state, and fires no alert. -/
theorem C7_open_frame_resets (l r : ℚ) (st : AttentionSettings) (now : ℚ)
    (s : EngineState) (hen : st.enabled = true)
    (hopen : st.thresholds.earThreshold ≤ computeAverageEAR l r) :
    (handleLandmarks (FrameObservation.detected l r) st now s).1 =
      { eyesClosedStartTime := none,
        currentAttentionState := AttentionState.awake,
        closedFrameCount := 0 } ∧
    (handleLandmarks (FrameObservation.detected l r) st now s).2.filter
      isAlert = [] := by
  rw [handleLandmarks_detected l r st now s hen,
    handleDetected_open l r st now s hopen]
  exact ⟨rfl, by simp [isAlert, sendAttentionUpdate]⟩

/-- Witness for C7 at a concrete input: a single open frame taken while the
engine is in Microsleep with a long-standing latch resets everything to the
initial tracking values. -/
theorem C7_open_frame_resets_witness :
    (handleLandmarks (FrameObservation.detected (1/2) (1/2)) stC7 9000
      { eyesClosedStartTime := some 0,
        currentAttentionState := AttentionState.microsleep,
        closedFrameCount := 270 }).1 =
      { eyesClosedStartTime := none,
        currentAttentionState := AttentionState.awake,
        closedFrameCount := 0 } :=
  (C7_open_frame_resets (1/2) (1/2) stC7 9000
    { eyesClosedStartTime := some 0,
      currentAttentionState := AttentionState.microsleep,
      closedFrameCount := 270 }
    rfl (by norm_num [computeAverageEAR, stC7])).1

/-! ## C8: state assigned only by the classifier -/

/-- C8 counterexample: over a run consisting purely of no-face frames the
state changes from awake to microsleep, yet determineAttentionState is only
ever invoked on detected-face frames (the no-face branch of handleLandmarks
assigns the state literals directly), so currentAttentionState is assigned by
a code path other than the classification function. -/
theorem C8_counterexample :
    framesC8 = List.replicate 15 frC8 ∧
    frC8.obs = FrameObservation.notDetected ∧
    initialEngineState.currentAttentionState = AttentionState.awake ∧
    (runEngine framesC8).currentAttentionState = AttentionState.microsleep := by
  refine ⟨rfl, rfl, rfl, ?_⟩
  norm_num [framesC8, runEngine, runState, processFrame, handleLandmarks,
    handleNoFace, stC8, frC8, initialEngineState, MIN_CLOSED_FRAMES,
    triggerDrowsinessAlert, List.replicate]
  decide

/-- C8 amended: on enabled detected-face frames currentAttentionState is
assigned exactly the value returned by determineAttentionState; on enabled
no-face frames the handler itself assigns the state, leaving it unchanged or
setting the Drowsy or Microsleep literal directly without calling the
classifier. -/
theorem C8_amended_state_assignment (l r : ℚ) (st : AttentionSettings)
    (now : ℚ) (s : EngineState) (hen : st.enabled = true) :
    (handleLandmarks (FrameObservation.detected l r) st now
        s).1.currentAttentionState =
      (determineAttentionState (computeAverageEAR l r) st now
        s.closedFrameCount s.eyesClosedStartTime).state ∧
    ((handleLandmarks FrameObservation.notDetected st now
        s).1.currentAttentionState = s.currentAttentionState ∨
     (handleLandmarks FrameObservation.notDetected st now
        s).1.currentAttentionState = AttentionState.drowsy ∨
     (handleLandmarks FrameObservation.notDetected st now
        s).1.currentAttentionState = AttentionState.microsleep) := by
  rw [handleLandmarks_detected l r st now s hen,
    handleLandmarks_notDetected st now s hen]
  refine ⟨rfl, ?_⟩
  simp only [handleNoFace]
  split_ifs <;> simp

/-- Witness for the C8 amended theorem at a concrete input. -/
theorem C8_amended_state_assignment_witness :
    (handleLandmarks (FrameObservation.detected (1/10) (1/10)) stC8 0
        initialEngineState).1.currentAttentionState =
      (determineAttentionState (computeAverageEAR (1/10) (1/10)) stC8 0
        initialEngineState.closedFrameCount
        initialEngineState.eyesClosedStartTime).state :=
  (C8_amended_state_assignment (1/10) (1/10) stC8 0 initialEngineState rfl).1

/-! ## C9: alert confidence values -/

/-- C9: every alert emitted on a no-face frame carries confidence exactly
99/100 when its state is Microsleep and exactly 94/100 when its state is
Drowsy; every alert emitted on a detected-face frame carries confidence
exactly 1 - AverageEAR / earThreshold, with no clamping. -/
theorem C9_alert_confidence (obs : FrameObservation) (st : AttentionSettings)
    (now : ℚ) (s : EngineState) (m : Message) (l r : ℚ)
    (hm : m ∈ (handleLandmarks obs st now s).2) (ha : isAlert m = true) :
    (obs = FrameObservation.notDetected →
      (messageState m = AttentionState.microsleep →
        messageConfidence m = 99/100) ∧
      (messageState m = AttentionState.drowsy →
        messageConfidence m = 94/100)) ∧
    (obs = FrameObservation.detected l r →
      messageConfidence m =
        1 - computeAverageEAR l r / st.thresholds.earThreshold) := by
  by_cases hen : st.enabled = true
  · cases obs with
    | notDetected =>
        rw [handleLandmarks_notDetected st now s hen] at hm
        refine ⟨fun _ => ?_, fun h => FrameObservation.noConfusion h⟩
        revert hm
        simp only [handleNoFace]
        split_ifs <;> intro hm
        · exact absurd hm (List.not_mem_nil m)
        · rcases List.mem_singleton.1 hm with rfl
          simp [triggerDrowsinessAlert, messageState, messageConfidence]
        · exact absurd hm (List.not_mem_nil m)
        · rcases List.mem_singleton.1 hm with rfl
          simp [triggerDrowsinessAlert, messageState, messageConfidence]
        · exact absurd hm (List.not_mem_nil m)
        · exact absurd hm (List.not_mem_nil m)
    | detected lx rx =>
        rw [handleLandmarks_detected lx rx st now s hen] at hm
        refine ⟨fun h => FrameObservation.noConfusion h, fun h => ?_⟩
        injection h with h1 h2
        subst h1; subst h2
        revert hm
        simp only [handleDetected, List.mem_append]
        rintro (hmem | hmem)
        · revert hmem
          split_ifs <;> intro hmem
          · rcases List.mem_singleton.1 hmem with rfl
            simp [triggerDrowsinessAlert, messageConfidence]
          · exact absurd hmem (List.not_mem_nil m)
        · rcases List.mem_singleton.1 hmem with rfl
          simp [sendAttentionUpdate, isAlert] at ha
  · have hb : st.enabled = false := by
      revert hen
      cases st.enabled <;> simp
    rw [handleLandmarks_disabled obs st now s hb] at hm
    exact absurd hm (List.not_mem_nil m)

/-- Witness for C9 at a concrete input: the microsleep alert fired on a
no-face frame from a latched state carries confidence 99/100. -/
theorem C9_alert_confidence_witness :
    messageConfidence
      (Message.drowsinessDetected AttentionState.microsleep (99/100) 0)
      = 99/100 :=
  ((C9_alert_confidence FrameObservation.notDetected stC9 0
      { eyesClosedStartTime := some 0,
        currentAttentionState := AttentionState.awake,
        closedFrameCount := 20 }
      (Message.drowsinessDetected AttentionState.microsleep (99/100) 0) 1 1
      (by
        norm_num [handleLandmarks, handleNoFace, stC9, MIN_CLOSED_FRAMES,
          triggerDrowsinessAlert]
        simp)
      rfl).1 rfl).1 rfl

/-! ## C10: periodic update confidence is the constant 0.85 -/

/-- C10: every periodic ATTENTION_UPDATE message emitted on any frame carries
the constant confidence 85/100, independent of observation, settings, state
and closed-duration. -/
theorem C10_update_confidence (obs : FrameObservation)
    (st : AttentionSettings) (now : ℚ) (s : EngineState) (m : Message)
    (hm : m ∈ (handleLandmarks obs st now s).2) (hu : isUpdate m = true) :
    messageConfidence m = 85/100 := by
  by_cases hen : st.enabled = true
  · cases obs with
    | notDetected =>
        rw [handleLandmarks_notDetected st now s hen] at hm
        revert hm
        simp only [handleNoFace]
        split_ifs <;> intro hm
        · exact absurd hm (List.not_mem_nil m)
        · rcases List.mem_singleton.1 hm with rfl
          simp [triggerDrowsinessAlert, isUpdate] at hu
        · exact absurd hm (List.not_mem_nil m)
        · rcases List.mem_singleton.1 hm with rfl
          simp [triggerDrowsinessAlert, isUpdate] at hu
        · exact absurd hm (List.not_mem_nil m)
        · exact absurd hm (List.not_mem_nil m)
    | detected l r =>
        rw [handleLandmarks_detected l r st now s hen] at hm
        revert hm
        simp only [handleDetected, List.mem_append]
        rintro (hmem | hmem)
        · revert hmem
          split_ifs <;> intro hmem
          · rcases List.mem_singleton.1 hmem with rfl
            simp [triggerDrowsinessAlert, isUpdate] at hu
          · exact absurd hmem (List.not_mem_nil m)
        · rcases List.mem_singleton.1 hmem with rfl
          simp [sendAttentionUpdate, messageConfidence]
  · have hb : st.enabled = false := by
      revert hen
      cases st.enabled <;> simp
    rw [handleLandmarks_disabled obs st now s hb] at hm
    exact absurd hm (List.not_mem_nil m)

/-- Witness for C10 at a concrete input: the update emitted on an open
detected frame carries confidence 85/100. -/
theorem C10_update_confidence_witness :
    messageConfidence
      (Message.attentionUpdate AttentionState.awake (85/100) 1 0 0)
      = 85/100 :=
  C10_update_confidence (FrameObservation.detected 1 1) stC10 0
    initialEngineState
    (Message.attentionUpdate AttentionState.awake (85/100) 1 0 0)
    (by
      norm_num [handleLandmarks, handleDetected, determineAttentionState,
        stC10, initialEngineState, MIN_CLOSED_FRAMES, computeAverageEAR,
        sendAttentionUpdate, closedDurationSeconds])
    rfl
